import Mathlib

/-!
Verification development for the EquityAnalysisFilter pipeline
(src/fetch.py, src/filters.py, src/setup.py, src/financial_analysis.py).

Modelling conventions.
* Python floats are modelled as exact rationals.  The one place in the
  pipeline where IEEE non-finite values can actually arise from rational
  inputs (the pandas element-wise division in the 4-year margin
  computation) is modelled with an explicit extended value type FVal
  carrying nan and signed infinities.
* Python exceptions are modelled with Option (or an explicit outcome
  type): none at the point an exception would be raised, propagated to
  the matching try/except handler.
* pandas DataFrames of financial statements are modelled as association
  lists from line-item name to the list of per-period rational values,
  most recent period first.
* Provider JSON objects are modelled field by field as
  Option (Option v): none = key absent, some none = key present with a
  null value, some (some v) = key present with value v.
-/

namespace EquityAnalysis

set_option maxRecDepth 10000

/-!
The ambient library marks the arithmetic of the rational numbers
irreducible, which blocks concrete evaluation inside proofs.  The
embedding therefore performs its arithmetic through the following
kernel-evaluable operations on numerators and denominators; the bridge
theorems ratAdd_eq, ratSub_eq, ratMul_eq, ratDiv_eq, ratAbs_eq,
ratOfInt_eq and ratSum_eq below identify them with the ordinary
operations, so symbolic reasoning proceeds as usual.
-/

/-- Addition of rationals by cross-multiplication (kernel-evaluable). -/
def ratAdd (a b : ℚ) : ℚ :=
  Rat.divInt (a.num * (b.den : ℤ) + b.num * (a.den : ℤ)) ((a.den : ℤ) * (b.den : ℤ))

/-- Subtraction of rationals by cross-multiplication (kernel-evaluable). -/
def ratSub (a b : ℚ) : ℚ :=
  Rat.divInt (a.num * (b.den : ℤ) - b.num * (a.den : ℤ)) ((a.den : ℤ) * (b.den : ℤ))

/-- Multiplication of rationals (kernel-evaluable). -/
def ratMul (a b : ℚ) : ℚ :=
  Rat.divInt (a.num * b.num) ((a.den : ℤ) * (b.den : ℤ))

/-- Division of rationals (kernel-evaluable); division by zero gives 0,
the same convention as the ambient field. -/
def ratDiv (a b : ℚ) : ℚ :=
  Rat.divInt (a.num * (b.den : ℤ)) ((a.den : ℤ) * b.num)

/-- Absolute value of a rational (kernel-evaluable). -/
def ratAbs (q : ℚ) : ℚ := if q < 0 then -q else q

/-- The rational for an integer (kernel-evaluable). -/
def ratOfInt (z : ℤ) : ℚ := mkRat z 1

/-- Sum of a list of rationals (kernel-evaluable). -/
def ratSum (l : List ℚ) : ℚ := l.foldr ratAdd 0

/-- Python round() on a float: round half to even (exact-rational model),
computed on the numerator and denominator so that the kernel can
evaluate it: with f the floor of q, the fractional part compares to 1/2
as 2 * (num - f * den) compares to den. -/
def pyRound (q : ℚ) : ℤ :=
  let n := q.num
  let d : ℤ := Int.ofNat q.den
  let f := Int.fdiv n d
  let r2 := 2 * (n - f * d)
  if r2 < d then f
  else if d < r2 then f + 1
  else if f % 2 = 0 then f else f + 1

/-- Python round(x, 2). -/
def round2 (q : ℚ) : ℚ := mkRat (pyRound (ratMul q 100)) 100

/-- Decides whether one character list occurs at the start of another. -/
def charsPre : List Char → List Char → Bool
  | [], _ => true
  | _ :: _, [] => false
  | a :: as, b :: bs => a = b && charsPre as bs

/-- Decides whether the needle occurs as a contiguous run of the haystack. -/
def charsSub (needle : List Char) : List Char → Bool
  | [] => charsPre needle []
  | h :: t => charsPre needle (h :: t) || charsSub needle t

/-- The Python expression (sub in hay) on strings: substring containment. -/
def strContains (hay sub : String) : Bool :=
  charsSub sub.toList hay.toList

/-- A financial-statement DataFrame: line-item name to per-period values,
most recent period first. -/
abbrev Table := List (String × List ℚ)

/-- Row lookup by line-item name (pandas: key in df.index / df.loc of key). -/
def lookupRow (t : Table) (k : String) : Option (List ℚ) :=
  match List.find? (fun p => p.1 == k) t with
  | some p => some p.2
  | none => none

/-- Whether the DataFrame is empty (df.empty: no data at all). -/
def tableEmpty (t : Table) : Bool :=
  match t with
  | [] => true
  | _ :: _ => false

/-- setup.py get_val (and the identical get_item of financial_analysis.py):
try the candidate row names in order; on the first name present in the
index return the most recent value of that row (df.loc of the key, then
.iloc of 0, which raises if the row is empty - modelled as none); if no
candidate name is present return 0. -/
def get_val (df : Table) : List String → Option ℚ
  | [] => some 0
  | k :: ks =>
    match lookupRow df k with
    | some row => row.head?
    | none => get_val df ks

/-- setup.py calculate_altman_z_yfinance: Altman Z-Score from the balance
sheet, the income statement and the market capitalization in dollars.
Returns 0 when total assets or total liabilities are 0, or when any row
lookup raises (empty row hit by .iloc of 0). -/
def calculate_altman_z_yfinance (bs fin : Table) (market_cap : ℚ) : ℚ :=
  let r : Option ℚ := do
    let total_assets ← get_val bs ["Total Assets"]
    let total_liab ← get_val bs
      ["Total Liabilities Net Minority Interest", "Total Liabilities"]
    let current_assets ← get_val bs ["Current Assets", "Total Current Assets"]
    let current_liab ← get_val bs
      ["Current Liabilities", "Total Current Liabilities"]
    let retained_earnings ← get_val bs ["Retained Earnings"]
    let ebit ← get_val fin ["EBIT", "Operating Income"]
    let total_revenue ← get_val fin ["Total Revenue"]
    if total_assets = 0 ∨ total_liab = 0 then
      some 0
    else
      let A := ratDiv (ratSub current_assets current_liab) total_assets
      let B := ratDiv retained_earnings total_assets
      let C := ratDiv ebit total_assets
      let D := ratDiv market_cap total_liab
      let E := ratDiv total_revenue total_assets
      some (ratAdd (ratAdd (ratAdd (ratAdd
        (ratMul (Rat.divInt 12 10) A)
        (ratMul (Rat.divInt 14 10) B))
        (ratMul (Rat.divInt 33 10) C))
        (ratMul (Rat.divInt 6 10) D))
        (ratMul (Rat.divInt 10 10) E))
  r.getD 0

/-- financial_analysis.py line 85: the freshness test applied to a cache
entry (current_time - cached timestamp < expiry_seconds, strictly). -/
def is_fresh (timestamp now expiry_seconds : ℚ) : Bool :=
  ratSub now timestamp < expiry_seconds

/-! ## filters.py: the Bulk Screener (get_initial_survivors) -/

/-- Thresholds passed to get_initial_survivors.  (The concrete values live
outside src; every statement below is parametric in them.) -/
structure ScreenConfig where
  minPrice : ℚ
  minVolume : ℚ
  minCap : ℚ
  minCurrRatio : ℚ
  excludedSectors : List String
  maxPE : ℚ

/-- The per-ticker JSON bundle assembled from the yahooquery modules,
flattened to the eight fields the screener reads.  Outer Option: key
present; inner Option: value non-null.  (Module objects themselves are
taken to be objects when present, matching the .get(module, empty-dict)
accesses.) -/
structure Bundle where
  regularMarketPrice : Option (Option ℚ)
  averageVolume : Option (Option ℚ)
  averageDailyVolume10Day : Option (Option ℚ)
  marketCap : Option (Option ℚ)
  sector : Option (Option String)
  currentRatio : Option (Option ℚ)
  operatingMargins : Option (Option ℚ)
  trailingPE : Option (Option ℚ)

/-- Python dict .get(key, default): absent key gives the default, a null
value gives None (inner none), a value gives itself. -/
def jget (field : Option (Option ℚ)) (d : ℚ) : Option ℚ :=
  match field with
  | none => some d
  | some v => v

/-- A row of the Bulk Screener output DataFrame. -/
structure ScreenRecord where
  ticker : String
  sector : Option String
  price : ℚ
  opMarginPct : ℚ
  pe : ℚ
  currRatio : ℚ
  mktCapB : ℚ
deriving DecidableEq, Repr

/-- Result of the per-ticker body inside the inner try of
get_initial_survivors. -/
inductive ScreenOutcome where
  | raised
  | filtered
  | survived (r : ScreenRecord)

/-- Python any(x in sector for x in excluded): the generator is lazy, so
with a non-empty excluded list and sector = None the first membership
test raises TypeError (none); with an empty list nothing is evaluated
and the result is False. -/
def anyInSector (excluded : List String) (sector : Option String) : Option Bool :=
  match excluded with
  | [] => some false
  | _ :: _ =>
    match sector with
    | none => none
    | some s => some (excluded.any fun x => strContains s x)

/-- filters.py lines 59-145: normalization and filtering of the ticker
bundle (the body of the inner try).  Mirrors the source statement by
statement, including which null values are normalized and which reach a
comparison and raise. -/
def processTicker (cfg : ScreenConfig) (symbol : String) (b : Bundle) :
    ScreenOutcome :=
  let price0 := jget b.regularMarketPrice 0
  let price : ℚ := price0.getD 0
  let vol0 := jget b.averageVolume 0
  let vol : Option ℚ :=
    if vol0 = none ∨ vol0 = some 0 then jget b.averageDailyVolume10Day 0
    else vol0
  let cap : ℚ := (jget b.marketCap 0).getD 0
  let sector : Option String :=
    match b.sector with
    | none => some "Unknown"
    | some s => s
  let curr_ratio : ℚ := (jget b.currentRatio 0).getD 0
  let op_margins : ℚ := (jget b.operatingMargins 0).getD 0
  let pe : Option ℚ := b.trailingPE.join
  if (match pe with | some p => decide (p > cfg.maxPE) | none => false) then
    .filtered
  else if price < cfg.minPrice then .filtered
  else if cap < cfg.minCap then .filtered
  else
    match vol with
    | none => .raised
    | some v =>
      if v < cfg.minVolume then .filtered
      else
        match anyInSector cfg.excludedSectors sector with
        | none => .raised
        | some true => .filtered
        | some false =>
          if curr_ratio < cfg.minCurrRatio then .filtered
          else if op_margins ≤ 0 then .filtered
          else
            .survived
              { ticker := symbol
                sector := sector
                price := price
                opMarginPct := round2 (ratMul op_margins 100)
                pe := match pe with
                      | some p => if p = 0 then 0 else round2 p
                      | none => 0
                currRatio := curr_ratio
                mktCapB := round2 (ratDiv cap 1000000000) }

/-- Whether an outcome is a surviving record. -/
def ScreenOutcome.isSurvived : ScreenOutcome → Bool
  | .survived _ => true
  | _ => false

/-- The per-symbol entry of the get_modules response: either an error
string (treated as absence) or a data bundle. -/
inductive ModuleResp where
  | errStr
  | data (b : Bundle)

/-- One ticker of the module loop, with the inner except: an exception
from the body silently drops the ticker. -/
def runTicker (cfg : ScreenConfig) (symbol : String) (resp : ModuleResp) :
    Option ScreenRecord :=
  match resp with
  | .errStr => none
  | .data b =>
    match processTicker cfg symbol b with
    | .survived r => some r
    | _ => none

/-- The chunking of the ticker list into batches of 500, written with a
fuel argument (one unit per batch is ample, each batch consumes at least
one element) so that it is structurally recursive and evaluates. -/
def chunksGo (fuel : Nat) (l : List String) : List (List String) :=
  match fuel, l with
  | 0, _ => []
  | _ + 1, [] => []
  | f + 1, h :: t => ((h :: t).take 500) :: chunksGo f ((h :: t).drop 500)

/-- The chunking of the ticker list into batches of 500. -/
def chunks500 (l : List String) : List (List String) :=
  chunksGo l.length l

/-- filters.py get_initial_survivors: batch the tickers, fetch each batch
through the bulk provider (modelled as an oracle; none = the whole batch
raised and is dropped), and filter each returned symbol. -/
def get_initial_survivors (cfg : ScreenConfig)
    (fetchChunk : List String → Option (List (String × ModuleResp)))
    (tickers : List String) : List ScreenRecord :=
  ((chunks500 tickers).map (fun chunk =>
    match fetchChunk chunk with
    | none => []
    | some items => items.filterMap (fun p => runTicker cfg p.1 p.2))).flatten

/-- Modelled from the spec (the filter predicate of claim C4, stated as an
order-free conjunction): the effective average volume, falling back to
the 10-day average when the primary volume is zero or absent. -/
def specEffVolume (b : Bundle) : ℚ :=
  match b.averageVolume with
  | some (some v) => if v = 0 then (jget b.averageDailyVolume10Day 0).getD 0 else v
  | _ => (jget b.averageDailyVolume10Day 0).getD 0

/-- Modelled from the spec: the effective sector, with absent or null
normalized to "Unknown". -/
def specSector (b : Bundle) : String :=
  match b.sector with
  | some (some s) => s
  | _ => "Unknown"

/-- Modelled from the spec (claim C4): a ticker survives iff all filter
predicates hold simultaneously. -/
def survivesSpec (cfg : ScreenConfig) (b : Bundle) : Bool :=
  (match b.trailingPE.join with
   | some p => decide (p ≤ cfg.maxPE)
   | none => true) &&
  decide (cfg.minPrice ≤ (jget b.regularMarketPrice 0).getD 0) &&
  decide (cfg.minCap ≤ (jget b.marketCap 0).getD 0) &&
  decide (cfg.minVolume ≤ specEffVolume b) &&
  !(cfg.excludedSectors.any fun x => strContains (specSector b) x) &&
  decide (cfg.minCurrRatio ≤ (jget b.currentRatio 0).getD 0) &&
  decide (0 < (jget b.operatingMargins 0).getD 0)

/-- The bundle shapes for which normalization in the screener is complete:
the sector value and the 10-day fallback volume are not present-and-null. -/
def Bundle.wellFormed (b : Bundle) : Prop :=
  b.sector ≠ some none ∧ b.averageDailyVolume10Day ≠ some none

/-! ## setup.py: the Trend Filter (apply_trend_alignment) -/

/-- What the bulk history download holds for one ticker: absent from the
returned columns, a per-ticker processing error (exception inside the
loop body), or a series of daily closes, oldest first. -/
inductive TickerHist where
  | missing
  | errors
  | hist (closes : List ℚ)

/-- The value at the last position of rolling(200).mean(): the simple
moving average of the final 200 closes.  (Division by zero follows the
rational convention q / 0 = 0; it is reachable only behind the length
guard, never exercised by the claims.) -/
def sma200 (closes : List ℚ) : ℚ :=
  ratDiv (ratSum (closes.drop (closes.length - 200))) 200

/-- One ticker of the trend loop (setup.py lines 202-240): drop when the
ticker is not among the downloaded columns, when the body raises, when
fewer than 200 observations exist, or when the latest close is not
strictly above the 200-day SMA; otherwise emit the original row enriched
with the rounded SMA and the trend distance percentage. -/
def processTrendTicker {α : Type} (df : List (String × α))
    (dl : String → TickerHist) (ticker : String) :
    Option ((String × α) × ℚ × ℚ) :=
  match dl ticker with
  | .missing => none
  | .errors => none
  | .hist closes =>
    if closes.length < 200 then none
    else
      let sma := sma200 closes
      let current_price := closes.getLastD 0
      let is_uptrend : Bool := sma < current_price
      let distance_pct := round2 (ratMul (ratDiv (ratSub current_price sma) sma) 100)
      if is_uptrend then
        match List.find? (fun p => p.1 == ticker) df with
        | some base => some (base, round2 sma, distance_pct)
        | none => none
      else none

/-- Insertion of a row into a list sorted ascending by the trend
distance (the final sort_values call). -/
def insertByDist {α : Type} (x : (String × α) × ℚ × ℚ) :
    List ((String × α) × ℚ × ℚ) → List ((String × α) × ℚ × ℚ)
  | [] => [x]
  | y :: ys => if x.2.2 ≤ y.2.2 then x :: y :: ys else y :: insertByDist x ys

/-- Sort ascending by trend distance percentage. -/
def sortByDist {α : Type} :
    List ((String × α) × ℚ × ℚ) → List ((String × α) × ℚ × ℚ)
  | [] => []
  | x :: xs => insertByDist x (sortByDist xs)

/-- The rows collected by the trend loop before sorting. -/
def trendRows {α : Type} (df : List (String × α)) (dl : String → TickerHist)
    (tickers : List String) : List ((String × α) × ℚ × ℚ) :=
  tickers.filterMap (processTrendTicker df dl)

/-- Result of apply_trend_alignment: either the input DataFrame handed
back unchanged (empty input, or total download failure) or the filtered,
enriched and sorted output DataFrame. -/
inductive TrendResult (α : Type) where
  | unfiltered (df : List (String × α))
  | filtered (rows : List ((String × α) × ℚ × ℚ))

/-- setup.py apply_trend_alignment.  Input rows are (ticker, rest of the
row); the download oracle is none when yf.download raises for the whole
batch. -/
def apply_trend_alignment {α : Type} (df_input : List (String × α))
    (download : Option (String → TickerHist)) : TrendResult α :=
  match df_input with
  | [] => .unfiltered df_input
  | _ :: _ =>
    match download with
    | none => .unfiltered df_input
    | some dl =>
      .filtered (sortByDist (trendRows df_input dl (df_input.map (fun p => p.1))))

/-! ## financial_analysis.py: the Deep Analyzer (get_advanced_metrics) -/

/-- Configuration passed to get_advanced_metrics. -/
structure DeepConfig where
  cacheExpiryDays : ℚ
  fortressThr : ℚ
  minIntCov : ℚ
  minRoic : ℚ

/-- A cache entry as written by the analyzer. -/
structure CacheEntry where
  timestamp : ℚ
  z_score : ℚ
  roic : ℚ
  int_cov : ℚ
deriving DecidableEq, Repr

/-- The quality tier labels. -/
inductive Tier where
  | Fortress
  | Strong
  | Risky
deriving DecidableEq, Repr

/-- financial_analysis.py determine_tier_history: the tier decision
ladder, reading int_cov, roic and z_score from the metrics entry (the
z_score key is always present in entries the analyzer builds, so the
.get default 0 is never taken). -/
def determine_tier_history (minIntCov minRoic : ℚ) (metrics : CacheEntry)
    (is_fortress_margin is_pos_margin : Bool) : Tier :=
  let z_val := metrics.z_score
  if metrics.int_cov < minIntCov then .Risky
  else if metrics.roic < minRoic then .Risky
  else if is_fortress_margin && decide (z_val ≥ Rat.divInt 299 100) then .Fortress
  else if is_pos_margin && decide (z_val ≥ Rat.divInt 181 100) then .Strong
  else .Risky

/-- IEEE-style extended value: the results that can flow out of the
pandas element-wise division over rational cells. -/
inductive FVal where
  | nan
  | pinf
  | ninf
  | fin (q : ℚ)
deriving DecidableEq, Repr

/-- Float division of two rational cells: x / 0 is a signed infinity for
x nonzero and nan for x = 0; otherwise exact. -/
def fdivQ (a b : ℚ) : FVal :=
  if b = 0 then
    if a = 0 then .nan else if 0 < a then .pinf else .ninf
  else .fin (ratDiv a b)

/-- Float addition on extended values. -/
def fadd : FVal → FVal → FVal
  | .nan, _ => .nan
  | _, .nan => .nan
  | .pinf, .ninf => .nan
  | .ninf, .pinf => .nan
  | .pinf, _ => .pinf
  | _, .pinf => .pinf
  | .ninf, _ => .ninf
  | _, .ninf => .ninf
  | .fin a, .fin b => .fin (ratAdd a b)

/-- Sum of a list of extended values. -/
def fsum (l : List FVal) : FVal := l.foldl fadd (.fin 0)

/-- Mean of a list of extended values (denominator a positive count). -/
def fmean (l : List FVal) : FVal :=
  match fsum l with
  | .nan => .nan
  | .pinf => .pinf
  | .ninf => .ninf
  | .fin q => .fin (ratDiv q (ratOfInt (Int.ofNat l.length)))

/-- Float comparison value > threshold: false for nan, true for +inf. -/
def fgtQ (v : FVal) (t : ℚ) : Bool :=
  match v with
  | .nan => false
  | .pinf => true
  | .ninf => false
  | .fin q => t < q

/-- Python round(x, 2) lifted to extended values (round preserves nan and
the infinities). -/
def fround2pct (v : FVal) : FVal :=
  match v with
  | .fin q => .fin (round2 (ratMul q 100))
  | x => x

/-- financial_analysis.py lines 102-129: the 4-year average operating
margin block.  Returns the two margin booleans together with the value
assigned to the local avg_margin this iteration (none when the block
raised - Total Revenue absent - or when no period yielded a valid ratio,
in which case the local is left untouched).  When both Operating Income
and EBIT are absent the code divides pd.Series of a single 0 with an
integer index by the period-indexed revenue row: index alignment makes
every entry NaN, dropna empties the series, and the length-0 branch is
taken. -/
def computeMargins (fortressThr : ℚ) (fin : Table) :
    Bool × Bool × Option FVal :=
  let op? : Option (List ℚ) :=
    match lookupRow fin "Operating Income" with
    | some r => some r
    | none => lookupRow fin "EBIT"
  match lookupRow fin "Total Revenue" with
  | none => (false, false, none)
  | some revenue_history =>
    match op? with
    | none => (false, false, none)
    | some op_income_history =>
      let yearly_margins :=
        (List.zipWith fdivQ op_income_history revenue_history).filter
          (fun m => m ≠ FVal.nan)
      if 0 < yearly_margins.length then
        let avg_margin := fmean yearly_margins
        (fgtQ avg_margin fortressThr, fgtQ avg_margin 0, some avg_margin)
      else (false, false, none)

/-- financial_analysis.py lines 149-155: interest coverage from EBIT and
the (sign-normalized) interest expense; expense 0 gives the sentinel 100. -/
def interest_coverage (ebit int_exp : ℚ) : ℚ :=
  let a := ratAbs int_exp
  if a = 0 then 100 else ratDiv ebit a

/-- The outcome of the per-ticker yfinance fetch: the constructor raises
models an exception from yf.Ticker / .financials / .balance_sheet. -/
inductive FetchOutcome where
  | raises
  | ok (fin bs : Table)

/-- A row of the Deep Analyzer output. -/
structure DeepRecord where
  ticker : String
  tier : Tier
  price : ℚ
  pe : ℚ
  sector : Option String
  z_score : ℚ
  roicPct : ℚ
  opMarginPct : ℚ
  avgMargin4Y : FVal
  currRatio : ℚ
  intCov : ℚ
  mktCapB : ℚ
deriving DecidableEq, Repr

/-- Cache lookup (dict .get). -/
def lookupEntry (c : List (String × CacheEntry)) (k : String) :
    Option CacheEntry :=
  match List.find? (fun p => p.1 == k) c with
  | some p => some p.2
  | none => none

/-- Dict assignment cache[ticker] = metrics. -/
def setEntry (c : List (String × CacheEntry)) (k : String) (v : CacheEntry) :
    List (String × CacheEntry) :=
  if c.any (fun p => p.1 == k) then
    c.map (fun p => if p.1 == k then (k, v) else p)
  else c ++ [(k, v)]

/-- The loop state of get_advanced_metrics: the cache dict, the
accumulated final_data list, and the function-level local avg_margin
(which Python keeps across loop iterations; the source tests
"avg_margin" in locals()). -/
structure DeepState where
  cache : List (String × CacheEntry)
  finalData : List DeepRecord
  avgMarginLocal : Option FVal

/-- One iteration of the ticker loop of get_advanced_metrics (lines
39-207), mirroring the source order: cache consult (skip only a fresh
failure sentinel), fetch, empty-data skip, margin block, point-in-time
ratios inside the outer try (an exception anywhere leaves the state -
except the already-updated avg_margin local - unchanged), cache update,
tier decision, record emission. -/
def stepTicker (cfg : DeepConfig) (current_time : ℚ)
    (survivors : List ScreenRecord) (fetch : String → FetchOutcome)
    (st : DeepState) (ticker : String) : DeepState :=
  let expiry_seconds := ratMul cfg.cacheExpiryDays 86400
  let skip : Bool :=
    match lookupEntry st.cache ticker with
    | some e => is_fresh e.timestamp current_time expiry_seconds &&
        decide (e.roic = -999)
    | none => false
  if skip then st
  else
    match fetch ticker with
    | .raises => st
    | .ok fin bs =>
      if tableEmpty fin || tableEmpty bs then st
      else
        let m := computeMargins cfg.fortressThr fin
        let is_fortress_margin := m.1
        let is_positive_margin := m.2.1
        let avgLocal : Option FVal :=
          match m.2.2 with
          | some v => some v
          | none => st.avgMarginLocal
        let rest : Option (CacheEntry × ScreenRecord × ℚ × ℚ × ℚ) := do
          let ebit ← get_val fin ["EBIT", "Operating Income", "Pretax Income"]
          let int_exp ← get_val fin
            ["Interest Expense", "Interest Expense Non Operating"]
          let total_assets ← get_val bs ["Total Assets"]
          let curr_liab ← get_val bs
            ["Current Liabilities", "Total Current Liabilities"]
          let int_cov := interest_coverage ebit int_exp
          let invested_cap := ratSub total_assets curr_liab
          let roic := if invested_cap ≤ 0 then 0 else ratDiv ebit invested_cap
          let base_row ← List.find? (fun r => r.ticker == ticker) survivors
          let mkt_cap_raw := ratMul base_row.mktCapB 1000000000
          let z := calculate_altman_z_yfinance bs fin mkt_cap_raw
          pure (⟨current_time, round2 z, roic, round2 int_cov⟩, base_row, z,
            roic, int_cov)
        match rest with
        | none => { st with avgMarginLocal := avgLocal }
        | some (metrics, base_row, z, roic, int_cov) =>
          let tier := determine_tier_history cfg.minIntCov cfg.minRoic metrics
            is_fortress_margin is_positive_margin
          { cache := setEntry st.cache ticker metrics
            finalData := st.finalData ++
              [{ ticker := ticker
                 tier := tier
                 price := base_row.price
                 pe := base_row.pe
                 sector := base_row.sector
                 z_score := round2 z
                 roicPct := round2 (ratMul roic 100)
                 opMarginPct := base_row.opMarginPct
                 avgMargin4Y := match avgLocal with
                                | some m => fround2pct m
                                | none => .fin 0
                 currRatio := base_row.currRatio
                 intCov := round2 int_cov
                 mktCapB := base_row.mktCapB }]
            avgMarginLocal := avgLocal }

/-- financial_analysis.py get_advanced_metrics: loop over the survivor
tickers threading the cache and the locals, then hand back the emitted
records together with the cache that save_cache persists. -/
def get_advanced_metrics (cfg : DeepConfig) (current_time : ℚ)
    (survivors : List ScreenRecord) (fetch : String → FetchOutcome)
    (cache0 : List (String × CacheEntry)) :
    List DeepRecord × List (String × CacheEntry) :=
  let final := (survivors.map (fun r => r.ticker)).foldl
    (stepTicker cfg current_time survivors fetch)
    { cache := cache0, finalData := [], avgMarginLocal := none }
  (final.finalData, final.cache)

/-! ## Concrete fixtures used by witnesses and counterexamples -/

/-- Balance sheet of the worked Altman example of the spec. -/
def bsX : Table :=
  [("Total Assets", [1000]),
   ("Total Liabilities Net Minority Interest", [600]),
   ("Current Assets", [400]),
   ("Current Liabilities", [200]),
   ("Retained Earnings", [100])]

/-- Income statement of the worked Altman example of the spec. -/
def finX : Table := [("EBIT", [150]), ("Total Revenue", [900])]

/-- Balance sheet with zero total assets. -/
def bsZero : Table :=
  [("Total Assets", [0]), ("Total Liabilities", [600])]

/-- A screener survivor row. -/
def rowA : ScreenRecord :=
  { ticker := "AAA", sector := some "Technology", price := 10,
    opMarginPct := 20, pe := 15, currRatio := 2, mktCapB := 2 }

/-- A second screener survivor row. -/
def rowB : ScreenRecord :=
  { ticker := "BBB", sector := some "Technology", price := 10,
    opMarginPct := 20, pe := 15, currRatio := 2, mktCapB := 2 }

/-- A complete balance sheet for the deep-analysis fixtures. -/
def bsA : Table :=
  [("Total Assets", [1000]),
   ("Total Liabilities Net Minority Interest", [600]),
   ("Current Assets", [400]),
   ("Current Liabilities", [200]),
   ("Retained Earnings", [100])]

/-- An income statement whose margin block succeeds: per-period margins
80/200 and 60/150, both 0.4, average 0.4. -/
def finA : Table :=
  [("Operating Income", [80, 60]),
   ("Total Revenue", [200, 150]),
   ("EBIT", [80, 60]),
   ("Interest Expense", [10, 10])]

/-- An income statement with no Total Revenue row: the margin block
raises KeyError and leaves the avg_margin local untouched. -/
def finB : Table :=
  [("Operating Income", [50]),
   ("Interest Expense", [5])]

/-- A deep-analysis configuration. -/
def cfg0 : DeepConfig :=
  { cacheExpiryDays := 7, fortressThr := Rat.divInt 5 100, minIntCov := 3, minRoic := Rat.divInt 1 10 }

/-- Fetch oracle: AAA succeeds with complete data, BBB succeeds but its
income statement lacks Total Revenue. -/
def fetchC3 : String → FetchOutcome := fun t =>
  if t = "AAA" then .ok finA bsA
  else if t = "BBB" then .ok finB bsA
  else .raises

/-- Fetch oracle where every fetch raises. -/
def fetchFailAll : String → FetchOutcome := fun _ => .raises

/-- Fetch oracle where every fetch returns the complete AAA data. -/
def fetchOkA : String → FetchOutcome := fun _ => .ok finA bsA

/-- A screener configuration with a non-empty excluded-sector list. -/
def cfgS : ScreenConfig :=
  { minPrice := 5, minVolume := 100000, minCap := 1000000000,
    minCurrRatio := 1, excludedSectors := ["Financial"], maxPE := 30 }

/-- A bundle that passes every filter of cfgS. -/
def bGood : Bundle :=
  { regularMarketPrice := some (some 10)
    averageVolume := some (some 200000)
    averageDailyVolume10Day := some (some 150000)
    marketCap := some (some 2000000000)
    sector := some (some "Technology")
    currentRatio := some (some 2)
    operatingMargins := some (some (Rat.divInt 2 10))
    trailingPE := some (some 15) }

/-- bGood with the sector key present but null. -/
def bNullSector : Bundle :=
  { regularMarketPrice := some (some 10)
    averageVolume := some (some 200000)
    averageDailyVolume10Day := some (some 150000)
    marketCap := some (some 2000000000)
    sector := some none
    currentRatio := some (some 2)
    operatingMargins := some (some (Rat.divInt 2 10))
    trailingPE := some (some 15) }

/-- A bulk-fetch oracle answering every queried symbol with bGood. -/
def fetchW : List String → Option (List (String × ModuleResp)) :=
  fun c => some (c.map (fun s => (s, ModuleResp.data bGood)))

/-- The record the screener emits for AAPL under cfgS and bGood. -/
def recW : ScreenRecord :=
  { ticker := "AAPL", sector := some "Technology", price := 10,
    opMarginPct := 20, pe := 15, currRatio := 2, mktCapB := 2 }

/-- A one-row trend input DataFrame. -/
def dfT : List (String × ℚ) := [("AAA", 1)]

/-- 199 daily closes: too short for the 200-day SMA. -/
def closes199 : List ℚ := List.replicate 199 10

/-- Trend history oracle giving every ticker the short series. -/
def dlT : String → TickerHist := fun _ => .hist closes199

/-- Trend history oracle equal to dlT except that AAA errors. -/
def dlErrA : String → TickerHist := fun s =>
  if s = "AAA" then .errors else .hist closes199

/-! Theorems. -/

/-! ## Bridge theorems for the kernel-evaluable arithmetic -/

theorem rat_num_eq (a : ℚ) : (a.num : ℚ) = a * (a.den : ℚ) := by
  have ha : ((a.den : ℚ)) ≠ 0 := by exact_mod_cast a.den_nz
  exact (div_eq_iff ha).mp (Rat.num_div_den a)

theorem ratMul_eq (a b : ℚ) : ratMul a b = a * b := by
  have ha : ((a.den : ℚ)) ≠ 0 := by exact_mod_cast a.den_nz
  have hb : ((b.den : ℚ)) ≠ 0 := by exact_mod_cast b.den_nz
  rw [ratMul, Rat.divInt_eq_div]
  push_cast
  field_simp
  rw [rat_num_eq a, rat_num_eq b]
  ring

theorem ratAdd_eq (a b : ℚ) : ratAdd a b = a + b := by
  have ha : ((a.den : ℚ)) ≠ 0 := by exact_mod_cast a.den_nz
  have hb : ((b.den : ℚ)) ≠ 0 := by exact_mod_cast b.den_nz
  rw [ratAdd, Rat.divInt_eq_div]
  push_cast
  field_simp
  rw [rat_num_eq a, rat_num_eq b]
  ring

theorem ratSub_eq (a b : ℚ) : ratSub a b = a - b := by
  have ha : ((a.den : ℚ)) ≠ 0 := by exact_mod_cast a.den_nz
  have hb : ((b.den : ℚ)) ≠ 0 := by exact_mod_cast b.den_nz
  rw [ratSub, Rat.divInt_eq_div]
  push_cast
  field_simp
  rw [rat_num_eq a, rat_num_eq b]
  ring

theorem ratDiv_eq (a b : ℚ) : ratDiv a b = a / b := by
  have ha : ((a.den : ℚ)) ≠ 0 := by exact_mod_cast a.den_nz
  have hb : ((b.den : ℚ)) ≠ 0 := by exact_mod_cast b.den_nz
  rcases eq_or_ne b 0 with h0 | h0
  · subst h0
    simp [ratDiv, Rat.divInt_eq_div]
  · have hbn : (b.num : ℚ) ≠ 0 := by
      rw [rat_num_eq]
      exact mul_ne_zero h0 hb
    rw [ratDiv, Rat.divInt_eq_div]
    push_cast
    field_simp
    rw [rat_num_eq a, rat_num_eq b]
    ring

theorem ratAbs_eq (q : ℚ) : ratAbs q = |q| := by
  unfold ratAbs
  split
  · rw [abs_of_neg (by assumption)]
  · rw [abs_of_nonneg (not_lt.mp (by assumption))]

theorem ratOfInt_eq (z : ℤ) : ratOfInt z = (z : ℚ) := by
  simp [ratOfInt]

theorem ratSum_eq (l : List ℚ) : ratSum l = l.sum := by
  induction l with
  | nil => rfl
  | cons h t ih =>
    show ratAdd h (List.foldr ratAdd 0 t) = (h :: t).sum
    rw [show List.foldr ratAdd 0 t = ratSum t from rfl, ih, ratAdd_eq, List.sum_cons]

/-! ## The tier decision ladder -/

theorem determine_tier_history_eq (minIC minROIC : ℚ) (e : CacheEntry) (fm pm : Bool) :
    determine_tier_history minIC minROIC e fm pm =
      (if e.int_cov < minIC then Tier.Risky
       else if e.roic < minROIC then Tier.Risky
       else if fm = true ∧ e.z_score ≥ 2.99 then Tier.Fortress
       else if pm = true ∧ e.z_score ≥ 1.81 then Tier.Strong
       else Tier.Risky) := by
  unfold determine_tier_history
  have h299 : (Rat.divInt 299 100 : ℚ) = 2.99 := by
    rw [Rat.divInt_eq_div]; norm_num
  have h181 : (Rat.divInt 181 100 : ℚ) = 1.81 := by
    rw [Rat.divInt_eq_div]; norm_num
  rw [h299, h181]
  rcases fm <;> rcases pm <;> simp

/-- Claim C9: a cache entry is fresh exactly while now - timestamp is
strictly below the expiry: for every timestamp T and expiry E the entry
is fresh at T + E - 1 and stale at T + E + 1. -/
theorem cache_freshness_c9 :
    ∀ T E : ℚ, (∀ now, is_fresh T now E = true ↔ now - T < E) ∧
      is_fresh T (T + E - 1) E = true ∧ is_fresh T (T + E + 1) E = false := by
  intro T E
  refine ⟨fun now => ?_, ?_, ?_⟩
  · simp [is_fresh, ratSub_eq]
  · simp only [is_fresh, ratSub_eq, decide_eq_true_eq]
    linarith
  · simp only [is_fresh, ratSub_eq, decide_eq_false_iff_not, not_lt]
    linarith

/-- Claim C1: tier classification is a deterministic pure function of
(interest coverage, roic, fortress margin, positive margin, z score) -
in particular it ignores the timestamp field of the metrics entry - and
follows exactly the stated decision ladder.  The worked examples hold
for every threshold choice consistent with them (the concrete
MIN_INTEREST_COVERAGE and MIN_ROIC live outside src): coverage 50 and
roic 0.15 pass the gates whenever MIN_INTEREST_COVERAGE is at most 50
and MIN_ROIC at most 0.15, giving Fortress and Strong, and coverage 2
gives Risky whenever 2 is below MIN_INTEREST_COVERAGE. -/
theorem tier_classification_c1 :
    (∀ (mic mr : ℚ) (e : CacheEntry) (fm pm : Bool),
      determine_tier_history mic mr e fm pm =
        (if e.int_cov < mic then Tier.Risky
         else if e.roic < mr then Tier.Risky
         else if fm = true ∧ e.z_score ≥ 2.99 then Tier.Fortress
         else if pm = true ∧ e.z_score ≥ 1.81 then Tier.Strong
         else Tier.Risky)) ∧
    (∀ (mic mr ts ts' z r ic : ℚ) (fm pm : Bool),
      determine_tier_history mic mr ⟨ts, z, r, ic⟩ fm pm =
        determine_tier_history mic mr ⟨ts', z, r, ic⟩ fm pm) ∧
    (∀ mic mr : ℚ, mic ≤ 50 → mr ≤ 0.15 →
      (∀ pm, determine_tier_history mic mr ⟨0, 3.5, 0.15, 50⟩ true pm = Tier.Fortress) ∧
      determine_tier_history mic mr ⟨0, 2.0, 0.15, 50⟩ false true = Tier.Strong) ∧
    (∀ mic mr : ℚ, 2 < mic → ∀ fm pm,
      determine_tier_history mic mr ⟨0, 5.0, 0.15, 2⟩ fm pm = Tier.Risky) := by
  refine ⟨determine_tier_history_eq, ?_, ?_, ?_⟩
  · intro mic mr ts ts' z r ic fm pm
    rw [determine_tier_history_eq, determine_tier_history_eq]
  · intro mic mr h1 h2
    constructor
    · intro pm
      rw [determine_tier_history_eq]
      rw [if_neg (not_lt.mpr h1), if_neg (not_lt.mpr h2), if_pos (by norm_num)]
    · rw [determine_tier_history_eq]
      rw [if_neg (not_lt.mpr h1), if_neg (not_lt.mpr h2),
        if_neg (by simp), if_pos (by norm_num)]
  · intro mic mr h fm pm
    rw [determine_tier_history_eq]
    rw [if_pos h]

/-- Witness for claim C1: the three worked examples at the concrete
thresholds MIN_INTEREST_COVERAGE = 3 and MIN_ROIC = 1/10. -/
theorem tier_classification_c1_witness :
    determine_tier_history 3 (1/10) ⟨0, 3.5, 0.15, 50⟩ true false = Tier.Fortress ∧
    determine_tier_history 3 (1/10) ⟨0, 2.0, 0.15, 50⟩ false true = Tier.Strong ∧
    determine_tier_history 3 (1/10) ⟨0, 5.0, 0.15, 2⟩ true true = Tier.Risky :=
  ⟨(tier_classification_c1.2.2.1 3 (1/10) (by norm_num) (by norm_num)).1 false,
   (tier_classification_c1.2.2.1 3 (1/10) (by norm_num) (by norm_num)).2,
   tier_classification_c1.2.2.2 3 (1/10) (by norm_num) true true⟩

/-- Claim C10: when the resolved interest expense has absolute value 0
the Deep Analyzer sets the coverage to the sentinel 100 regardless of
the sign of EBIT, and whenever MIN_INTEREST_COVERAGE is at most 100 the
interest-coverage gate does not fire: the tier is decided entirely by
the subsequent ROIC, margin and z-score conditions. -/
theorem interest_sentinel_c10 :
    ∀ ebit int_exp : ℚ, |int_exp| = 0 →
      interest_coverage ebit int_exp = 100 ∧
      (∀ (mic mr ts z roic : ℚ) (fm pm : Bool), mic ≤ 100 →
        determine_tier_history mic mr
            ⟨ts, z, roic, round2 (interest_coverage ebit int_exp)⟩ fm pm =
          (if roic < mr then Tier.Risky
           else if fm = true ∧ z ≥ 2.99 then Tier.Fortress
           else if pm = true ∧ z ≥ 1.81 then Tier.Strong
           else Tier.Risky)) := by
  intro ebit int_exp h
  have h100 : interest_coverage ebit int_exp = 100 := by
    unfold interest_coverage
    rw [if_pos (by rw [ratAbs_eq]; exact h)]
  refine ⟨h100, ?_⟩
  intro mic mr ts z roic fm pm hmic
  rw [h100, determine_tier_history_eq]
  have hr : round2 (100 : ℚ) = 100 := by decide
  rw [if_neg]
  show ¬(round2 100 < mic)
  rw [hr]
  exact not_lt.mpr hmic

/-- Witness for claim C10: negative EBIT, zero interest expense, a
threshold of 3: the gate does not fire and the z-score branch decides. -/
theorem interest_sentinel_c10_witness :
    interest_coverage (-5) 0 = 100 ∧
    determine_tier_history 3 (1/10) ⟨0, 5, 0.15, round2 (interest_coverage (-5) 0)⟩
      true true = Tier.Fortress := by
  have h := interest_sentinel_c10 (-5) 0 (by norm_num)
  refine ⟨h.1, ?_⟩
  rw [h.2 3 (1/10) 0 5 0.15 true true (by norm_num)]
  norm_num

/-- Claim C2 (evaluating the code at the failing input): a run over the
single survivor AAA whose fetch raises, starting from an empty cache,
leaves the cache empty - no failure-sentinel entry with roic = -999 is
written - and a later run within the expiry window refetches AAA and
emits it instead of skipping it. -/
theorem deep_failure_sentinel_c2 :
    (get_advanced_metrics cfg0 1000 [rowA] fetchFailAll []).2 = [] ∧
    lookupEntry (get_advanced_metrics cfg0 1000 [rowA] fetchFailAll []).2 "AAA" = none ∧
    ((get_advanced_metrics cfg0 1001 [rowA] fetchOkA
        (get_advanced_metrics cfg0 1000 [rowA] fetchFailAll []).2).1.map
      (fun r => r.ticker)) = ["AAA"] :=
  ⟨by decide, by decide, by decide⟩

/-- Claim C3 (evaluating the code at the failing input): for BBB the
margin computation raises (no Total Revenue row) and both margin
booleans are false, yet the emitted record reports the Avg Margin (4Y)
of the previously processed ticker AAA (40, the rounded percentage of
the 0.4 average of AAA) instead of the specified 0, because the Python local
avg_margin survives across loop iterations. -/
theorem deep_stale_avg_margin_c3 :
    computeMargins cfg0.fortressThr finB = (false, false, none) ∧
    ((get_advanced_metrics cfg0 1000 [rowA, rowB] fetchC3 []).1.map
      (fun r => (r.ticker, r.avgMargin4Y))) =
      [("AAA", FVal.fin 40), ("BBB", FVal.fin 40)] ∧
    FVal.fin 40 ≠ FVal.fin 0 :=
  ⟨by decide, by decide, by decide⟩

/-- Claim C5 counterexample: at the worked input of the spec the code
yields exactly 151/40 = 3.775; the gap to the claimed 3.968 is 0.193,
so the claimed value is wrong even at a loose tolerance. -/
theorem altman_value_counter_c5 :
    calculate_altman_z_yfinance bsX finX 2000 = 151/40 ∧
    (151/40 : ℚ) = 3.775 ∧
    ¬((3.968 - 151/40 : ℚ) < 1/100) := by
  refine ⟨?_, by norm_num, by norm_num⟩
  have h : calculate_altman_z_yfinance bsX finX 2000 = Rat.divInt 151 40 := by decide
  rw [h, Rat.divInt_eq_div]
  norm_num

theorem option_bind_const_none {α β : Type} (o : Option α) :
    (o.bind fun _ => (none : Option β)) = none := by cases o <;> rfl

/-- Claim C5 as amended: the Altman computation returns
1.2 A + 1.4 B + 3.3 C + 0.6 D + 1.0 E with the stated components,
returns 0 on zero assets or liabilities and on any raising lookup, and
at the worked input yields exactly 3.775 (the five components are as
the spec states; their weighted sum is 3.775, not 3.968). -/
theorem altman_z_c5 :
    (∀ (bs fin : Table) (mc ta tl ca cl re eb tr : ℚ),
      get_val bs ["Total Assets"] = some ta →
      get_val bs ["Total Liabilities Net Minority Interest", "Total Liabilities"] = some tl →
      get_val bs ["Current Assets", "Total Current Assets"] = some ca →
      get_val bs ["Current Liabilities", "Total Current Liabilities"] = some cl →
      get_val bs ["Retained Earnings"] = some re →
      get_val fin ["EBIT", "Operating Income"] = some eb →
      get_val fin ["Total Revenue"] = some tr →
      ta ≠ 0 → tl ≠ 0 →
      calculate_altman_z_yfinance bs fin mc =
        1.2 * ((ca - cl) / ta) + 1.4 * (re / ta) + 3.3 * (eb / ta) +
          0.6 * (mc / tl) + 1.0 * (tr / ta)) ∧
    (∀ (bs fin : Table) (mc ta tl : ℚ),
      get_val bs ["Total Assets"] = some ta →
      get_val bs ["Total Liabilities Net Minority Interest", "Total Liabilities"] = some tl →
      (ta = 0 ∨ tl = 0) →
      calculate_altman_z_yfinance bs fin mc = 0) ∧
    (∀ (bs fin : Table) (mc : ℚ),
      (get_val bs ["Total Assets"] = none ∨
       get_val bs ["Total Liabilities Net Minority Interest", "Total Liabilities"] = none ∨
       get_val bs ["Current Assets", "Total Current Assets"] = none ∨
       get_val bs ["Current Liabilities", "Total Current Liabilities"] = none ∨
       get_val bs ["Retained Earnings"] = none ∨
       get_val fin ["EBIT", "Operating Income"] = none ∨
       get_val fin ["Total Revenue"] = none) →
      calculate_altman_z_yfinance bs fin mc = 0) ∧
    calculate_altman_z_yfinance bsX finX 2000 = 151/40 ∧
    calculate_altman_z_yfinance bsZero finX 2000 = 0 := by
  refine ⟨?_, ?_, ?_, ?_, by decide⟩
  · intro bs fin mc ta tl ca cl re eb tr h1 h2 h3 h4 h5 h6 h7 hta htl
    unfold calculate_altman_z_yfinance
    rw [h1, h2, h3, h4, h5, h6, h7]
    simp only [Option.bind_eq_bind, Option.some_bind]
    rw [if_neg (by push_neg; exact ⟨hta, htl⟩)]
    simp only [Option.getD_some]
    simp only [ratAdd_eq, ratMul_eq, ratSub_eq, ratDiv_eq, Rat.divInt_eq_div]
    norm_num
  · intro bs fin mc ta tl h1 h2 hz
    unfold calculate_altman_z_yfinance
    rw [h1, h2]
    rcases hca : get_val bs ["Current Assets", "Total Current Assets"] with _ | ca <;>
      rcases hcl : get_val bs ["Current Liabilities", "Total Current Liabilities"] with _ | cl <;>
      rcases hre : get_val bs ["Retained Earnings"] with _ | re <;>
      rcases heb : get_val fin ["EBIT", "Operating Income"] with _ | eb <;>
      rcases htr : get_val fin ["Total Revenue"] with _ | tr <;>
      rcases hz with hz | hz <;> subst hz <;> simp
  · intro bs fin mc h
    rcases h with h | h | h | h | h | h | h <;>
      simp [calculate_altman_z_yfinance, h, option_bind_const_none]
  · have h : calculate_altman_z_yfinance bsX finX 2000 = Rat.divInt 151 40 := by decide
    rw [h, Rat.divInt_eq_div]
    norm_num

/-- Witness for claim C5: the formula conjunct applied at the worked
input of the spec. -/
theorem altman_z_c5_witness :
    calculate_altman_z_yfinance bsX finX 2000 =
      1.2 * (((400:ℚ) - 200) / 1000) + 1.4 * ((100:ℚ) / 1000) + 3.3 * ((150:ℚ) / 1000) +
        0.6 * ((2000:ℚ) / 600) + 1.0 * ((900:ℚ) / 1000) :=
  altman_z_c5.1 bsX finX 2000 1000 600 400 200 100 150 900 (by decide) (by decide)
    (by decide) (by decide) (by decide) (by decide) (by decide) (by norm_num) (by norm_num)

/-- Claim C7: for a ticker whose history was downloaded, the trend
filter keeps it iff it has at least 200 daily observations and its
latest close is strictly above the 200-day SMA; fewer than 200
observations always exclude it, and a latest close exactly equal to the
SMA excludes it. -/
theorem trend_survival_c7 :
    ∀ {α : Type} (df : List (String × α)) (dl : String → TickerHist)
      (t : String) (closes : List ℚ) (base : String × α),
      dl t = .hist closes →
      List.find? (fun p => p.1 == t) df = some base →
      (((processTrendTicker df dl t).isSome = true ↔
          200 ≤ closes.length ∧ sma200 closes < closes.getLastD 0) ∧
       (closes.length < 200 → processTrendTicker df dl t = none) ∧
       (closes.getLastD 0 = sma200 closes → processTrendTicker df dl t = none)) := by
  intro α df dl t closes base hdl hfind
  unfold processTrendTicker
  simp only [hdl]
  by_cases hlen : closes.length < 200
  · rw [if_pos hlen]
    refine ⟨?_, fun _ => rfl, fun _ => rfl⟩
    simp [not_le.2 hlen]
  · rw [if_neg hlen]
    by_cases hup : sma200 closes < closes.getLastD 0
    · simp only [hup, decide_True, if_true, hfind]
      refine ⟨?_, ?_, ?_⟩
      · simp [not_lt.1 hlen, hup]
      · intro h
        exact absurd h hlen
      · intro h
        exact absurd hup (by rw [h]; exact lt_irrefl _)
    · simp only [hup, decide_False, if_false]
      refine ⟨?_, fun _ => rfl, fun _ => rfl⟩
      simp [hup]

/-- Witness for claim C7: a ticker with only 199 observations is
excluded. -/
theorem trend_survival_c7_witness :
    processTrendTicker dfT dlT "AAA" = none := by
  have h := trend_survival_c7 dfT dlT "AAA" closes199 ("AAA", 1) (by rfl) (by decide)
  exact h.2.1 (by decide)

theorem processTrendTicker_congr {α : Type} (df : List (String × α))
    (dl dl' : String → TickerHist) (s : String) (h : dl' s = dl s) :
    processTrendTicker df dl' s = processTrendTicker df dl s := by
  unfold processTrendTicker
  rw [h]

theorem trendRows_err {α : Type} (df : List (String × α))
    (dl dl' : String → TickerHist) (t : String)
    (hagree : ∀ s, s ≠ t → dl' s = dl s) (herr : dl' t = .errors) :
    ∀ tickers, trendRows df dl' tickers =
      trendRows df dl (tickers.filter (fun s => s != t)) := by
  intro tickers
  induction tickers with
  | nil => rfl
  | cons s rest ih =>
    simp only [trendRows] at ih ⊢
    by_cases hs : s = t
    · subst hs
      have hnone : processTrendTicker df dl' s = none := by
        unfold processTrendTicker
        rw [herr]
      simp only [List.filterMap_cons, List.filter_cons, hnone,
        bne_self_eq_false, if_false, Bool.false_eq_true]
      exact ih
    · have hc := processTrendTicker_congr df dl dl' s (hagree s hs)
      have hbne : (s != t) = true := by simp [bne, hs]
      simp only [List.filter_cons, hbne, if_true]
      rw [List.filterMap_cons, List.filterMap_cons, hc]
      cases processTrendTicker df dl s <;> simp only [ih]

/-- Claim C8: a total download failure makes the trend filter hand back
the input unchanged, while an error processing a single ticker excludes
only that ticker: the output equals the output obtained as if that
ticker had simply been left out of the loop. -/
theorem trend_failure_c8 :
    (∀ (α : Type) (df : List (String × α)),
      apply_trend_alignment df none = TrendResult.unfiltered df) ∧
    (∀ (α : Type) (df : List (String × α)) (dl dl' : String → TickerHist)
      (t : String),
      df ≠ [] →
      (∀ s, s ≠ t → dl' s = dl s) → dl' t = .errors →
      apply_trend_alignment df (some dl') =
        .filtered (sortByDist (trendRows df dl
          ((df.map (fun p => p.1)).filter (fun s => s != t))))) := by
  constructor
  · intro α df
    cases df <;> rfl
  · intro α df dl dl' t hne hagree herr
    cases df with
    | nil => exact absurd rfl hne
    | cons hd tl =>
      show TrendResult.filtered (sortByDist (trendRows (hd :: tl) dl'
          ((hd :: tl).map (fun p => p.1)))) = _
      rw [trendRows_err (hd :: tl) dl dl' t hagree herr]

/-- Witness for claim C8: a one-row input; total failure passes it
through; an erroring AAA yields the output of the run without AAA. -/
theorem trend_failure_c8_witness :
    apply_trend_alignment dfT (none : Option (String → TickerHist)) =
      TrendResult.unfiltered dfT ∧
    apply_trend_alignment dfT (some dlErrA) =
      TrendResult.filtered (sortByDist (trendRows dfT dlT
        ((dfT.map (fun p => p.1)).filter (fun s => s != "AAA")))) := by
  refine ⟨trend_failure_c8.1 ℚ dfT,
    trend_failure_c8.2 ℚ dfT dlT dlErrA "AAA" (by decide) ?_ (by rfl)⟩
  intro s hs
  simp [dlErrA, dlT, hs]

theorem mem_chunksGo :
    ∀ (fuel : Nat) (l : List String), ∀ c ∈ chunksGo fuel l, ∀ x ∈ c, x ∈ l := by
  intro fuel
  induction fuel with
  | zero =>
    intro l c hc
    cases hc
  | succ f ih =>
    intro l c hc x hx
    cases l with
    | nil => cases hc
    | cons h t =>
      rcases List.mem_cons.1 hc with rfl | hc
      · exact List.mem_of_mem_take hx
      · exact List.mem_of_mem_drop (ih _ c hc x hx)

theorem mem_chunks500 (l : List String) : ∀ c ∈ chunks500 l, ∀ x ∈ c, x ∈ l :=
  mem_chunksGo l.length l

theorem processTicker_ticker {cfg : ScreenConfig} {s : String} {b : Bundle}
    {r : ScreenRecord} (h : processTicker cfg s b = .survived r) :
    r.ticker = s := by
  simp only [processTicker] at h
  repeat' first | cases h | split at h
  all_goals rfl

theorem runTicker_isSome (cfg : ScreenConfig) (s : String) (b : Bundle) :
    (runTicker cfg s (.data b)).isSome = (processTicker cfg s b).isSurvived := by
  unfold runTicker
  cases h : processTicker cfg s b <;> simp [h, ScreenOutcome.isSurvived]

theorem processTicker_isSurvived_eq (cfg : ScreenConfig) (s : String) (b : Bundle)
    (h1 : b.sector ≠ some none) (h2 : b.averageDailyVolume10Day ≠ some none) :
    (processTicker cfg s b).isSurvived = survivesSpec cfg b := by
  have hfall : jget b.averageDailyVolume10Day 0 =
      some ((jget b.averageDailyVolume10Day 0).getD 0) := by
    rcases hb : b.averageDailyVolume10Day with _ | (_ | w)
    · rfl
    · exact absurd hb h2
    · rfl
  have hvol : (if jget b.averageVolume 0 = none ∨ jget b.averageVolume 0 = some 0
      then jget b.averageDailyVolume10Day 0 else jget b.averageVolume 0) =
      some (specEffVolume b) := by
    rcases hb : b.averageVolume with _ | (_ | v)
    · rw [if_pos (by simp [jget, hb])]
      rw [hfall]
      simp [specEffVolume, hb]
    · rw [if_pos (by simp [jget, hb])]
      rw [hfall]
      simp [specEffVolume, hb]
    · by_cases hv : v = 0
      · subst hv
        rw [if_pos (by simp [jget, hb])]
        rw [hfall]
        simp [specEffVolume, hb]
      · rw [if_neg (by simp [jget, hb, hv])]
        simp [specEffVolume, hb, hv, jget]
  have hsec : (match b.sector with
      | none => some "Unknown"
      | some s => s) = some (specSector b) := by
    rcases hb : b.sector with _ | (_ | str)
    · simp [specSector, hb]
    · exact absurd hb h1
    · simp [specSector, hb]
  have hany : anyInSector cfg.excludedSectors (some (specSector b)) =
      some (cfg.excludedSectors.any fun x => strContains (specSector b) x) := by
    cases cfg.excludedSectors <;> rfl
  have hpeflip : (match b.trailingPE.join with
      | some p => decide (p ≤ cfg.maxPE)
      | none => true) =
      !(match b.trailingPE.join with
        | some p => decide (cfg.maxPE < p)
        | none => false) := by
    rcases b.trailingPE.join with _ | p
    · rfl
    · simp [← decide_not, not_lt]
  simp only [processTicker, survivesSpec, hvol, hsec, hany, hpeflip]
  cases hc1 : (match b.trailingPE.join with
      | some p => decide (cfg.maxPE < p)
      | none => false)
  · simp only [hc1, Bool.not_false, Bool.true_and, Bool.false_eq_true, if_false]
    by_cases hA2 : (jget b.regularMarketPrice 0).getD 0 < cfg.minPrice
    · simp [hA2, not_le.mpr hA2, ScreenOutcome.isSurvived]
    · simp only [if_neg hA2, decide_eq_true_eq.mpr (not_lt.mp hA2), Bool.true_and]
      by_cases hA3 : (jget b.marketCap 0).getD 0 < cfg.minCap
      · simp [hA3, not_le.mpr hA3, ScreenOutcome.isSurvived]
      · simp only [if_neg hA3, decide_eq_true_eq.mpr (not_lt.mp hA3), Bool.true_and]
        by_cases hA4 : specEffVolume b < cfg.minVolume
        · simp [hA4, not_le.mpr hA4, ScreenOutcome.isSurvived]
        · simp only [if_neg hA4, decide_eq_true_eq.mpr (not_lt.mp hA4), Bool.true_and]
          cases hA5 : cfg.excludedSectors.any fun x => strContains (specSector b) x
          · simp only [hA5, Bool.not_false, Bool.true_and]
            by_cases hA6 : (jget b.currentRatio 0).getD 0 < cfg.minCurrRatio
            · simp [hA6, not_le.mpr hA6, ScreenOutcome.isSurvived]
            · simp only [if_neg hA6, decide_eq_true_eq.mpr (not_lt.mp hA6), Bool.true_and]
              by_cases hA7 : (jget b.operatingMargins 0).getD 0 ≤ 0
              · simp [hA7, not_lt.mpr hA7, ScreenOutcome.isSurvived]
              · simp [if_neg hA7, not_le.mp hA7, ScreenOutcome.isSurvived]
          · simp [hA5, ScreenOutcome.isSurvived]
  · simp [hc1, ScreenOutcome.isSurvived]

/-- Claim C4: the Bulk Screener output is a subset of the input tickers
(whenever the bulk provider answers only for queried symbols), and for
every bundle whose normalization is complete (claim C6 records the two
null shapes where it is not) a ticker survives iff all seven filter
predicates hold simultaneously. -/
theorem screener_filter_c4 :
    (∀ (cfg : ScreenConfig)
       (fetchChunk : List String → Option (List (String × ModuleResp)))
       (tickers : List String),
      (∀ c items, fetchChunk c = some items → ∀ p ∈ items, p.1 ∈ c) →
      ∀ r ∈ get_initial_survivors cfg fetchChunk tickers, r.ticker ∈ tickers) ∧
    (∀ (cfg : ScreenConfig) (s : String) (b : Bundle),
      b.sector ≠ some none → b.averageDailyVolume10Day ≠ some none →
      ((runTicker cfg s (.data b)).isSome = true ↔ survivesSpec cfg b = true)) := by
  constructor
  · intro cfg fetchChunk tickers hfc r hr
    unfold get_initial_survivors at hr
    rw [List.mem_flatten] at hr
    obtain ⟨chunkOut, hin, hrin⟩ := hr
    rw [List.mem_map] at hin
    obtain ⟨chunk, hchunk, rfl⟩ := hin
    cases hf : fetchChunk chunk with
    | none => rw [hf] at hrin; cases hrin
    | some items =>
      rw [hf] at hrin
      rw [List.mem_filterMap] at hrin
      obtain ⟨p, hp, hrun⟩ := hrin
      have ht : r.ticker = p.1 := by
        unfold runTicker at hrun
        cases hresp : p.2 with
        | errStr =>
          simp only [hresp] at hrun
          cases hrun
        | data b =>
          simp only [hresp] at hrun
          cases hpt : processTicker cfg p.1 b with
          | raised =>
            simp only [hpt] at hrun
            cases hrun
          | filtered =>
            simp only [hpt] at hrun
            cases hrun
          | survived r' =>
            simp only [hpt] at hrun
            injection hrun with h
            rw [← h]
            exact processTicker_ticker hpt
      rw [ht]
      exact mem_chunks500 tickers chunk hchunk p.1 (hfc chunk items hf p hp)
  · intro cfg s b h1 h2
    rw [runTicker_isSome, processTicker_isSurvived_eq cfg s b h1 h2]

/-- Witness for claim C4: a concrete run over the single ticker AAPL
with a provider that answers every queried symbol; the emitted record
belongs to the input, and the per-ticker equivalence holds at bGood. -/
theorem screener_filter_c4_witness :
    recW.ticker ∈ ["AAPL"] ∧
    ((runTicker cfgS "TST" (.data bGood)).isSome = true ↔
      survivesSpec cfgS bGood = true) := by
  constructor
  · refine screener_filter_c4.1 cfgS fetchW ["AAPL"] ?_ recW (by decide)
    intro c items h p hp
    injection h with h
    subst h
    obtain ⟨s, hs, rfl⟩ := List.mem_map.1 hp
    exact hs
  · exact screener_filter_c4.2 cfgS "TST" bGood (by decide) (by decide)

/-- Claim C6 counterexample: a bundle whose sector key is present but
null is not normalized to "Unknown"; the sector membership test raises
a TypeError and the catch-all silently drops the ticker, even though
after the normalization the claim describes every filter predicate
holds and the ticker should survive. -/
theorem screener_null_counter_c6 :
    processTicker cfgS "TST" bNullSector = .raised ∧
    survivesSpec cfgS bNullSector = true ∧
    runTicker cfgS "TST" (.data bNullSector) = none :=
  ⟨by rfl, by decide, by rfl⟩

/-- Claim C6 as amended: absent fields are defaulted and null price,
market-cap, current-ratio, operating-margin, trailing-P/E and primary
volume values are normalized before any comparison; but a present-null
sector or a present-null 10-day fallback volume is not normalized - the
comparison raises and the catch-all drops the ticker.  For every bundle
outside those two shapes no comparison ever sees a null: the body never
raises. -/
theorem screener_normalization_c6 :
    ∀ (cfg : ScreenConfig) (s : String) (b : Bundle),
      b.sector ≠ some none → b.averageDailyVolume10Day ≠ some none →
      processTicker cfg s b ≠ .raised := by
  intro cfg s b h1 h2 hcon
  have hfall : jget b.averageDailyVolume10Day 0 =
      some ((jget b.averageDailyVolume10Day 0).getD 0) := by
    rcases hb : b.averageDailyVolume10Day with _ | (_ | w)
    · rfl
    · exact absurd hb h2
    · rfl
  have hvol : (if jget b.averageVolume 0 = none ∨ jget b.averageVolume 0 = some 0
      then jget b.averageDailyVolume10Day 0 else jget b.averageVolume 0) =
      some (specEffVolume b) := by
    rcases hb : b.averageVolume with _ | (_ | v)
    · rw [if_pos (by simp [jget, hb])]
      rw [hfall]
      simp [specEffVolume, hb]
    · rw [if_pos (by simp [jget, hb])]
      rw [hfall]
      simp [specEffVolume, hb]
    · by_cases hv : v = 0
      · subst hv
        rw [if_pos (by simp [jget, hb])]
        rw [hfall]
        simp [specEffVolume, hb]
      · rw [if_neg (by simp [jget, hb, hv])]
        simp [specEffVolume, hb, hv, jget]
  have hsec : (match b.sector with
      | none => some "Unknown"
      | some s => s) = some (specSector b) := by
    rcases hb : b.sector with _ | (_ | str)
    · simp [specSector, hb]
    · exact absurd hb h1
    · simp [specSector, hb]
  have hany : anyInSector cfg.excludedSectors (some (specSector b)) =
      some (cfg.excludedSectors.any fun x => strContains (specSector b) x) := by
    cases cfg.excludedSectors <;> rfl
  simp only [processTicker, hvol, hsec, hany] at hcon
  repeat' first | cases hcon | split at hcon
  all_goals exact Option.noConfusion (by assumption)

/-- Witness for claim C6: at the well-formed bundle bGood the screener
body does not raise. -/
theorem screener_normalization_c6_witness :
    processTicker cfgS "TST" bGood ≠ .raised :=
  screener_normalization_c6 cfgS "TST" bGood (by decide) (by decide)

end EquityAnalysis
